import Mathlib

set_option linter.unusedVariables false

/-!
Verification of the cpp_prop repository: a compile-time constructive-logic
proof library (constructive_logic.h, prover.cpp, enhanced_prover.cpp), a
boolean template-metafunction tautology layer (template.h, namespace
cpp_prop), and type-level Peano arithmetic (peano_prover.cpp).

The constructive layer is shallowly embedded: C++ types standing for
propositions become Lean types, std::function<B(A)> becomes A → B, the
And struct becomes a two-field structure, Or = std::variant<A, B> becomes
Sum A B, and the empty structs True and False become unit-like one-value
structures (they are default-constructible in C++, hence inhabited here).
A C++ function body that throws is modeled as returning Except String.

The std::visit dispatch inside or_elim branches on the compile-time value
of std::is_same_v of the visited alternative type against A; that
compile-time boolean is made explicit as a Decidable equality argument,
to be instantiated with isTrue exactly when the two template arguments
are the same C++ type and with isFalse otherwise.

The boolean layer of template.h maps arbitrary C++ types to TrueType or
FalseType by template specialization; the universe of C++ types is
modeled as CType, with a constructor for each of the two distinguished
truth types and one for every other type.
-/

namespace cpp_prop

/-- Universe of C++ types as seen by the template metafunctions of
template.h: the two distinguished truth types, and all other types. -/
inductive CType where
  | trueType
  | falseType
  | other (n : Nat)
  deriving DecidableEq

/-- template <typename A, typename B> struct And: the only specialization
is And<TrueType, TrueType> with type = TrueType; the primary template has
type = FalseType. -/
def And : CType → CType → CType
  | .trueType, .trueType => .trueType
  | _, _ => .falseType

/-- template <typename A, typename B> struct Or: specializations
Or<TrueType, B> and Or<A, TrueType> (and the disambiguating
Or<TrueType, TrueType>) have type = TrueType; the primary template has
type = FalseType. -/
def Or : CType → CType → CType
  | .trueType, _ => .trueType
  | _, .trueType => .trueType
  | _, _ => .falseType

/-- template <typename A> struct Not: the only specialization is
Not<FalseType> with type = TrueType; the primary template has
type = FalseType. -/
def Not : CType → CType
  | .falseType => .trueType
  | _ => .falseType

/-- template <typename A, typename B> struct Implies: the specialization
Implies<TrueType, B> has type = B; the primary template has
type = TrueType. -/
def Implies : CType → CType → CType
  | .trueType, b => b
  | _, _ => .trueType

/-- struct Equiv: And of the two Implies directions. -/
def Equiv (a b : CType) : CType :=
  And (Implies a b) (Implies b a)

/-- struct Syllogism: AB = Implies<A,B>::type, BC = Implies<B,C>::type,
type = Implies<And<AB,BC>::type, Implies<A,C>::type>::type. -/
def Syllogism (a b c : CType) : CType :=
  Implies (And (Implies a b) (Implies b c)) (Implies a c)

end cpp_prop

namespace CL

/-- struct True {} of constructive_logic.h: an empty struct, with exactly
one (stateless) value. -/
structure True where
  mk ::

/-- struct False {} of constructive_logic.h: an empty struct. In C++ it is
default-constructible, so it is embedded as an inhabited one-value type;
its values carry no information. -/
structure False where
  mk ::

/-- using Implies = std::function<B(A)>. -/
abbrev Implies (A B : Type) : Type := A → B

/-- template <typename A, typename B> struct And { A a; B b; }. -/
structure And (A B : Type) where
  a : A
  b : B

/-- using Or = std::variant<A, B>. -/
abbrev Or (A B : Type) : Type := Sum A B

/-- using Not = Implies<A, False>. -/
abbrev Not (A : Type) : Type := Implies A False

/-- modus_ponens(A a, Implies<A, B> f) { return f(a); }. -/
def modus_ponens {A B : Type} (a : A) (f : Implies A B) : B :=
  f a

/-- and_elim_left: returns the a component of the And struct. -/
def and_elim_left {A B : Type} : Implies (And A B) A :=
  fun and_ab => and_ab.a

/-- and_elim_right: returns the b component of the And struct. -/
def and_elim_right {A B : Type} : Implies (And A B) B :=
  fun and_ab => and_ab.b

/-- or_intro_left: constructs the variant at in_place_index 0. -/
def or_intro_left {A B : Type} : Implies A (Or A B) :=
  fun a => Sum.inl a

/-- or_intro_right: constructs the variant at in_place_index 1. -/
def or_intro_right {A B : Type} : Implies B (Or A B) :=
  fun b => Sum.inr b

/-- or_elim: case analysis of the variant via std::visit. The visit lambda
branches on if constexpr std::is_same_v of the decayed alternative type
against A: an index-0 value has type A, so the check is true and the ac
handler runs; an index-1 value has type B, and the check compares B with A.
The compile-time result of that comparison is the argument same: it is
Decidable.isTrue exactly when B and A are the same C++ type (in which case
the index-1 value is also handed to ac), and Decidable.isFalse otherwise
(in which case bc runs). -/
def or_elim {A B C : Type} (same : Decidable (B = A)) :
    Implies (Or A B) (Implies (Implies A C) (Implies (Implies B C) C)) :=
  fun or_ab ac bc =>
    match or_ab with
    | Sum.inl a => ac a
    | Sum.inr b =>
      match same with
      | Decidable.isTrue h => ac (cast h b)
      | Decidable.isFalse _ => bc b

/-- principle_of_explosion: its body is `throw std::logic_error("Explosion!")`;
the throwing body is embedded as an Except-returning function that always
produces the error and never a normal value. -/
def principle_of_explosion {A : Type} : False → Except String A :=
  fun _ => Except.error "Explosion!"

/-- syllogism(ab, bc): function composition, bc(ab(a)). -/
def syllogism {A B C : Type} (ab : Implies A B) (bc : Implies B C) :
    Implies A C :=
  fun a => bc (ab a)

/-- de_morgan_1: from not_or_ab builds not_a by composing with the index-0
injection and not_b by composing with a locally defined index-1 injection,
and pairs them. -/
def de_morgan_1 {A B : Type} :
    Implies (Not (Or A B)) (And (Not A) (Not B)) :=
  fun not_or_ab =>
    let not_a : Not A := fun a => not_or_ab (or_intro_left a)
    let not_b : Not B := fun b => not_or_ab (Sum.inr b)
    ⟨not_a, not_b⟩

/-- exportation(f): currying, a ↦ b ↦ f(And{a, b}). -/
def exportation {A B C : Type} (f : Implies (And A B) C) :
    Implies A (Implies B C) :=
  fun a => fun b => f ⟨a, b⟩

/-- importation(f): uncurrying, premises ↦ f(premises.a)(premises.b). -/
def importation {A B C : Type} (f : Implies A (Implies B C)) :
    Implies (And A B) C :=
  fun premises => f premises.a premises.b

/-- de_morgan_2: projects not_a and not_b from the premise and discharges an
assumed Or A B through or_elim instantiated at C = False. The argument same
is the compile-time std::is_same_v comparison used by that or_elim
instantiation (see or_elim). -/
def de_morgan_2 {A B : Type} (same : Decidable (B = A)) :
    Implies (And (Not A) (Not B)) (Not (Or A B)) :=
  fun not_a_and_not_b =>
    let not_a : Not A := and_elim_left not_a_and_not_b
    let not_b : Not B := and_elim_right not_a_and_not_b
    fun or_ab => or_elim same or_ab not_a not_b

/-- prove_dne_from_lem of enhanced_prover.cpp: given a LEM instance
Or<A, Not<A>>, builds Implies<Not<Not<A>>, A> by or_elim with case1 the
identity on A and case2 deriving False from na and nna by modus_ponens and
then invoking principle_of_explosion specialized to A. Since that body can
throw, the result is embedded in Except String; case1 wraps its value in
Except.ok and or_elim is instantiated at C = Except String A. The argument
same is the compile-time std::is_same_v comparison of Not<A> against A used
by the or_elim instantiation (always false in C++, since no type equals its
own function type into False). -/
def prove_dne_from_lem {A : Type} (same : Decidable (Not A = A))
    (lem_instance : Or A (Not A)) :
    Not (Not A) → Except String A :=
  fun nna =>
    let case1 : A → Except String A := fun a => Except.ok a
    let case2 : Not A → Except String A := fun na =>
      let f : False := modus_ponens na nna
      principle_of_explosion f
    or_elim same lem_instance case1 case2

end CL

namespace peano

/-- Type-level Peano numerals of peano_prover.cpp: struct Zero and
template <typename N> struct Succ. -/
inductive PNat where
  | Zero : PNat
  | Succ : PNat → PNat
  deriving DecidableEq

/-- Add of peano_prover.cpp: Add<Zero, M>::type = M and
Add<Succ<N>, M>::type = Succ<Add<N, M>::type>. -/
def Add : PNat → PNat → PNat
  | .Zero, m => m
  | .Succ n, m => .Succ (Add n m)

end peano

/-- Any two values of the embedded C++ struct False are equal: the struct is
empty, so its instances are indistinguishable. -/
theorem cl_false_unique : ∀ x y : CL.False, x = y :=
  fun x y => by cases x; cases y; rfl

/-- The C++ type Not<Nat>, a function type into False, is not the type Nat:
the function type has exactly one value while Nat has many. -/
theorem not_nat_ne_nat : CL.Not Nat ≠ Nat := by
  intro h
  have e : CL.Not Nat ≃ Nat := Equiv.cast h
  have h2 : e.symm 0 = e.symm 1 := funext fun k => cl_false_unique _ _
  have h3 : (0 : Nat) = 1 := e.symm.injective h2
  exact absurd h3 (by decide)

/-- Claim C1, counterexample: with A = B = Nat (so the std::is_same_v check
inside the visit lambda is true), or_elim applied to a right-populated
Or<Nat, Nat> containing 0, with left handler returning 1 and right handler
returning 2, returns 1 — the left handler's value — and not g(b) = 2 as the
claim requires. -/
theorem or_elim_same_type_counterexample :
    CL.or_elim (Decidable.isTrue rfl) (Sum.inr 0 : CL.Or Nat Nat)
      (fun a => (1 : Nat)) (fun b => (2 : Nat)) = 1 ∧
    CL.or_elim (Decidable.isTrue rfl) (Sum.inr 0 : CL.Or Nat Nat)
      (fun a => (1 : Nat)) (fun b => (2 : Nat)) ≠ 2 :=
  ⟨rfl, by decide⟩

/-- Claim C1 (corrected): or_elim applied to a left-populated Or(A,B)
containing a returns f(a), for any compile-time type comparison; applied to
a right-populated Or(A,B) containing b it returns g(b) whenever A and B are
distinct types; but when A and B are the same type, the type-based visit
dispatch hands a right-populated value to the left handler as well, so it
returns f(b), not g(b). -/
theorem or_elim_dispatches_by_type :
    (∀ (A B C : Type) (same : Decidable (B = A))
       (f : CL.Implies A C) (g : CL.Implies B C) (a : A),
        CL.or_elim same (Sum.inl a) f g = f a) ∧
    (∀ (A B C : Type) (h : B ≠ A)
       (f : CL.Implies A C) (g : CL.Implies B C) (b : B),
        CL.or_elim (Decidable.isFalse h) (Sum.inr b) f g = g b) ∧
    (∀ (A C : Type) (f g : CL.Implies A C) (b : A),
        CL.or_elim (Decidable.isTrue rfl) (Sum.inr b) f g = f b) :=
  ⟨fun A B C same f g a => rfl,
   fun A B C h f g b => rfl,
   fun A C f g b => rfl⟩

/-- Claim C1, witness: the distinct-type branch of or_elim_dispatches_by_type
at A = Nat, B = Not<Nat>, with the right handler returning 7. -/
theorem or_elim_dispatches_by_type_witness :
    CL.or_elim (Decidable.isFalse not_nat_ne_nat)
      (Sum.inr (fun k => CL.False.mk) : CL.Or Nat (CL.Not Nat))
      (fun n => n + 1) (fun g => (7 : Nat)) = 7 :=
  or_elim_dispatches_by_type.2.1 Nat (CL.Not Nat) Nat not_nat_ne_nat
    (fun n => n + 1) (fun g => (7 : Nat)) (fun k => CL.False.mk)

/-- Claim C2: the boolean-layer Syllogism evaluates to TrueType for all 8
assignments of TrueType/FalseType to its three parameters, in particular for
(FalseType, TrueType, FalseType). -/
theorem Syllogism_tautology :
    cpp_prop.Syllogism .trueType .trueType .trueType = .trueType ∧
    cpp_prop.Syllogism .trueType .trueType .falseType = .trueType ∧
    cpp_prop.Syllogism .trueType .falseType .trueType = .trueType ∧
    cpp_prop.Syllogism .trueType .falseType .falseType = .trueType ∧
    cpp_prop.Syllogism .falseType .trueType .trueType = .trueType ∧
    cpp_prop.Syllogism .falseType .trueType .falseType = .trueType ∧
    cpp_prop.Syllogism .falseType .falseType .trueType = .trueType ∧
    cpp_prop.Syllogism .falseType .falseType .falseType = .trueType := by
  decide

/-- Claim C3: the boolean-layer Implies is TrueType whenever the antecedent
is FalseType, regardless of the consequent, and is exactly the consequent
when the antecedent is TrueType; in particular
Implies<FalseType, FalseType>::type = TrueType. -/
theorem Implies_truth_table :
    (∀ B : cpp_prop.CType,
        cpp_prop.Implies .falseType B = .trueType ∧
        cpp_prop.Implies .trueType B = B) ∧
    cpp_prop.Implies .falseType .falseType = cpp_prop.CType.trueType :=
  ⟨fun B => ⟨rfl, rfl⟩, rfl⟩

/-- Claim C4: principle_of_explosion invoked on any value of type False
never returns normally: it always produces the Explosion error and never an
ok result. -/
theorem principle_of_explosion_raises :
    ∀ (A : Type) (f : CL.False),
      (CL.principle_of_explosion f : Except String A) =
          Except.error "Explosion!" ∧
      ∀ a : A, (CL.principle_of_explosion f : Except String A) ≠
          Except.ok a :=
  fun A f => ⟨rfl, fun a h => Except.noConfusion h⟩

/-- Claim C5: at A = B = C = the unit proposition True, importation after
exportation reproduces the original uncurried map on every And input, and
exportation after importation reproduces the original curried map on every
pair of inputs. -/
theorem exportation_importation_round_trip :
    (∀ (f : CL.Implies (CL.And CL.True CL.True) CL.True)
       (x : CL.And CL.True CL.True),
        CL.importation (CL.exportation f) x = f x) ∧
    (∀ (g : CL.Implies CL.True (CL.Implies CL.True CL.True))
       (a b : CL.True),
        CL.exportation (CL.importation g) a b = g a b) :=
  ⟨fun f x => rfl, fun g a b => rfl⟩

/-- Claim C6: syllogism is associative up to value equivalence — both
associations agree on every input. -/
theorem syllogism_assoc :
    ∀ (A B C D : Type) (f : CL.Implies A B) (g : CL.Implies B C)
      (h : CL.Implies C D) (a : A),
      CL.syllogism (CL.syllogism f g) h a =
        CL.syllogism f (CL.syllogism g h) a :=
  fun A B C D f g h a => rfl

/-- Claim C7: at A = B = False, de_morgan_1 followed by de_morgan_2 applied
to a disproof n agrees with n on every Or(False, False) input, and
de_morgan_2 followed by de_morgan_1 applied to a pair p yields a pair whose
components agree with those of p on every input. The or_elim inside
de_morgan_2 is instantiated with the two alternative types equal, so its
compile-time type comparison is true. -/
theorem de_morgan_round_trip :
    (∀ (n : CL.Not (CL.Or CL.False CL.False))
       (x : CL.Or CL.False CL.False),
        CL.de_morgan_2 (Decidable.isTrue rfl) (CL.de_morgan_1 n) x = n x) ∧
    (∀ (p : CL.And (CL.Not CL.False) (CL.Not CL.False)),
        (∀ x, (CL.de_morgan_1
            (CL.de_morgan_2 (Decidable.isTrue rfl) p)).a x = p.a x) ∧
        (∀ x, (CL.de_morgan_1
            (CL.de_morgan_2 (Decidable.isTrue rfl) p)).b x = p.b x)) :=
  ⟨fun n x => cl_false_unique _ _,
   fun p => ⟨fun x => cl_false_unique _ _, fun x => cl_false_unique _ _⟩⟩

/-- Claim C8: prove_dne_from_lem applied to a left-populated LEM instance
containing a returns a itself (as a normal ok result) for any compile-time
comparison of Not<A> with A; applied to a right-populated LEM instance
containing na (with Not<A> and A distinct types, as they always are in C++),
it produces its result by invoking principle_of_explosion specialized to A
on the False value derived from na and nna by modus_ponens. -/
theorem prove_dne_from_lem_cases :
    (∀ (A : Type) (same : Decidable (CL.Not A = A)) (a : A)
       (nna : CL.Not (CL.Not A)),
        CL.prove_dne_from_lem same (Sum.inl a) nna = Except.ok a) ∧
    (∀ (A : Type) (h : CL.Not A ≠ A) (na : CL.Not A)
       (nna : CL.Not (CL.Not A)),
        CL.prove_dne_from_lem (Decidable.isFalse h) (Sum.inr na) nna =
          CL.principle_of_explosion (CL.modus_ponens na nna)) :=
  ⟨fun A same a nna => rfl, fun A h na nna => rfl⟩

/-- Claim C8, witness: at A = Nat, the left branch with a = 5 returns ok 5,
and the right branch returns the Explosion error produced by
principle_of_explosion. -/
theorem prove_dne_from_lem_cases_witness :
    CL.prove_dne_from_lem (Decidable.isFalse not_nat_ne_nat)
      (Sum.inl 5 : CL.Or Nat (CL.Not Nat)) (fun na => na 0) =
        Except.ok 5 ∧
    CL.prove_dne_from_lem (Decidable.isFalse not_nat_ne_nat)
      (Sum.inr (fun k => CL.False.mk) : CL.Or Nat (CL.Not Nat))
      (fun na => na 0) =
        CL.principle_of_explosion
          (CL.modus_ponens (fun k => CL.False.mk) (fun na => na 0)) :=
  ⟨prove_dne_from_lem_cases.1 Nat (Decidable.isFalse not_nat_ne_nat) 5
     (fun na => na 0),
   prove_dne_from_lem_cases.2 Nat not_nat_ne_nat (fun k => CL.False.mk)
     (fun na => na 0)⟩

/-- Claim C9: the boolean-layer metafunctions are total over arbitrary
types: Implies with any non-TrueType antecedent is TrueType for every
consequent, and And is FalseType for every argument pair other than
(TrueType, TrueType) — any non-TrueType argument is treated as false. -/
theorem boolean_connectives_total :
    (∀ A B : cpp_prop.CType, A ≠ .trueType →
        cpp_prop.Implies A B = .trueType) ∧
    (∀ A B : cpp_prop.CType, ¬(A = .trueType ∧ B = .trueType) →
        cpp_prop.And A B = .falseType) := by
  constructor
  · intro A B hA
    cases A with
    | trueType => exact absurd rfl hA
    | falseType => rfl
    | other n => rfl
  · intro A B hAB
    cases A with
    | trueType =>
      cases B with
      | trueType => exact absurd ⟨rfl, rfl⟩ hAB
      | falseType => rfl
      | other n => rfl
    | falseType => rfl
    | other n => rfl

/-- Claim C9, witness: evaluated at the non-truth type with index 0: the
antecedent is not TrueType, so Implies gives TrueType, and the pair is not
(TrueType, TrueType), so And gives FalseType. -/
theorem boolean_connectives_total_witness :
    cpp_prop.Implies (.other 0) .falseType = cpp_prop.CType.trueType ∧
    cpp_prop.And (.other 0) .trueType = cpp_prop.CType.falseType :=
  ⟨boolean_connectives_total.1 (.other 0) .falseType (by decide),
   boolean_connectives_total.2 (.other 0) .trueType (by decide)⟩

/-- Claim C10: for every type-level Peano numeral N, Add<N, Zero>::type
equals N — Zero is a right identity of the type-level addition. -/
theorem theorem_add_zero_is_n :
    ∀ n : peano.PNat, peano.Add n .Zero = n := by
  intro n
  induction n with
  | Zero => rfl
  | Succ m ih =>
    show peano.PNat.Succ (peano.Add m .Zero) = peano.PNat.Succ m
    exact congrArg peano.PNat.Succ ih
